import Mathlib

/-!
Shallow embedding of the weather/scheduling/decision/financial core of the
`fofao_backend` repository, together with proofs checking the repository's
natural-language specification against the code.

Modelling conventions
* Python `float` values are modelled by `ℚ` (exact rational arithmetic);
  the quantities involved (precipitation, temperatures, money, scores) are
  plain decimal data, and none of the checked claims concern float rounding.
* Python `datetime` values are modelled by `Int` day ordinals: the code only
  ever shifts dates by whole days (`timedelta(days=n)`), compares them, and
  matches them by their `YYYY-MM-DD` rendering, all of which factor through
  the day ordinal.
* Python dictionaries are modelled by insertion-ordered association lists
  (`List (String × ℚ)`); `dict.get(k, d)` becomes `dictGet`.
* A Python value that may be `None` is modelled by `Option`; the idiom
  `if x and P(x)` on an optional number uses Python truthiness (both `None`
  and `0` are falsy), captured by `pyTruthy`.
* Functions that can raise are modelled in `Except String`.
-/

namespace Fofao

open List

/-! ### Python's stable sort

`list.sort(key=k, reverse=True)` in Python is the unique function returning a
permutation of the input that is weakly descending on `k` and stable (elements
with equal keys keep their original relative order).  We realise it with
insertion sort over the relation `k b ≤ k a` and prove the three
characterising properties below. -/

/-- The "descending on `key`" relation used to model `reverse=True` sorting. -/
def descRel {α β : Type} [LinearOrder β] (key : α → β) : α → α → Prop :=
  fun a b => key b ≤ key a

instance descRel_decidable {α β : Type} [LinearOrder β] (key : α → β) :
    DecidableRel (descRel key) :=
  fun a b => inferInstanceAs (Decidable (key b ≤ key a))

/-- Model of Python's `list.sort(key=key, reverse=True)` (stable, descending). -/
def pySortDesc {α β : Type} [LinearOrder β] (key : α → β) (l : List α) : List α :=
  l.insertionSort (descRel key)

theorem descRel_isTotal {α β : Type} [LinearOrder β] (key : α → β) :
    IsTotal α (descRel key) :=
  ⟨fun a b => (le_total (key b) (key a)).imp id id⟩

theorem descRel_isTrans {α β : Type} [LinearOrder β] (key : α → β) :
    IsTrans α (descRel key) :=
  ⟨fun _ _ _ h1 h2 => le_trans h2 h1⟩

/-- The sorted output is a permutation of the input. -/
theorem pySortDesc_perm {α β : Type} [LinearOrder β] (key : α → β) (l : List α) :
    pySortDesc key l ~ l :=
  List.perm_insertionSort _ l

/-- The output is weakly descending on the key. -/
theorem pySortDesc_sorted {α β : Type} [LinearOrder β] (key : α → β) (l : List α) :
    (pySortDesc key l).Sorted (descRel key) := by
  haveI := descRel_isTotal key
  haveI := descRel_isTrans key
  exact List.sorted_insertionSort _ l

theorem pairwise_of_forall_mem {α : Type} {r : α → α → Prop} :
    ∀ {l : List α}, (∀ a ∈ l, ∀ b ∈ l, r a b) → l.Pairwise r
  | [], _ => List.Pairwise.nil
  | a :: t, h =>
    List.Pairwise.cons
      (fun b hb => h a (List.mem_cons_self a t) b (List.mem_cons_of_mem a hb))
      (pairwise_of_forall_mem fun x hx y hy =>
        h x (List.mem_cons_of_mem a hx) y (List.mem_cons_of_mem a hy))

/-- Stability: for every key value `q`, the elements whose key is `q` appear in
the output in exactly their original order. -/
theorem pySortDesc_stable {α β : Type} [LinearOrder β] (key : α → β) (l : List α) (q : β) :
    (pySortDesc key l).filter (fun x => decide (key x = q)) =
      l.filter (fun x => decide (key x = q)) := by
  classical
  set p : α → Bool := fun x => decide (key x = q) with hp
  have hmemq : ∀ x ∈ l.filter p, key x = q := by
    intro x hx
    have := List.of_mem_filter hx
    simpa [hp] using this
  have hpw : (l.filter p).Pairwise (descRel key) := by
    refine pairwise_of_forall_mem fun a ha b hb => ?_
    unfold descRel
    rw [hmemq a ha, hmemq b hb]
  have hsub : l.filter p <+ pySortDesc key l :=
    List.sublist_insertionSort hpw (List.filter_sublist l)
  have h2 : (l.filter p).filter p <+ (pySortDesc key l).filter p := hsub.filter p
  have hff : (l.filter p).filter p = l.filter p := by
    rw [List.filter_filter]
    simp
  rw [hff] at h2
  have hperm : (pySortDesc key l).filter p ~ l.filter p :=
    (pySortDesc_perm key l).filter p
  exact (h2.eq_of_length hperm.length_eq.symm).symm

/-- Sorting an already weakly-descending list is the identity
(the Python sort leaves a sorted list untouched). -/
theorem pySortDesc_eq_self {α β : Type} [LinearOrder β] (key : α → β) {l : List α}
    (h : l.Sorted (descRel key)) : pySortDesc key l = l :=
  List.Sorted.insertionSort_eq h

/-! ### Data model: processed forecasts (`app/weather/service.py`) -/

/-- Python truthiness of an optional number: `None`, `0` and `0.0` are falsy. -/
def pyTruthy : Option ℚ → Bool
  | none => false
  | some x => decide (x ≠ 0)

/-- One entry of the processed `"daily"` list built by `_process_weather_data`:
its `"date"` (an ISO day, modelled by its day ordinal) plus the daily
parameters read by the suitability/window code.  A missing key is `none`
(`dict.get` defaults apply); JSON `null` values, which would make the Python
comparisons raise `TypeError`, are outside the model. -/
structure DailyEntry where
  date : Int
  precipitation_sum : Option ℚ
  temperature_2m_max : Option ℚ
  temperature_2m_min : Option ℚ
deriving DecidableEq

/-- The processed forecast structure, restricted to the `"daily"` list, which
is the only part the checked code paths read. -/
structure WeatherData where
  daily : List DailyEntry
deriving DecidableEq

/-- Result record of `WeatherService.check_weather_suitability`. -/
structure Suitability where
  is_suitable : Bool
  reasons : List String
  risks : List String
deriving DecidableEq

/-- Body of the `check_weather_suitability` loop for the matching entry. -/
def checkEntry (requires_dry_weather : Bool) (e : DailyEntry) : Suitability :=
  let precipitation := e.precipitation_sum.getD 0
  let s0 : Suitability := ⟨true, [], []⟩
  let s1 :=
    if requires_dry_weather ∧ 0 < precipitation then
      ⟨false, ["Rain expected (" ++ toString precipitation ++ " mm)"],
        ["Chemical runoff risk"]⟩
    else s0
  let s2 :=
    if pyTruthy e.temperature_2m_max ∧ 35 < e.temperature_2m_max.getD 0 then
      { s1 with risks := s1.risks ++ ["High temperature stress"] }
    else s1
  if pyTruthy e.temperature_2m_min ∧ e.temperature_2m_min.getD 0 < 10 then
    { s2 with risks := s2.risks ++ ["Low temperature stress"] }
  else s2

/-- Embedding of `WeatherService.check_weather_suitability`: scan the daily list for the
first entry whose date matches the target and run the checks on it (the loop
`break`s after the first match); with no match the defaults are returned. -/
def check_weather_suitability (weather_data : WeatherData) (date : Int)
    (requires_dry_weather : Bool) : Suitability :=
  match weather_data.daily.find? (fun e => e.date == date) with
  | some e => checkEntry requires_dry_weather e
  | none => ⟨true, [], []⟩

/-- One element of the list returned by `get_optimal_weather_window`. -/
structure WeatherWindow where
  date : Int
  weather_score : ℚ
  precipitation : ℚ
  temperature_max : Option ℚ
  temperature_min : Option ℚ
  is_suitable : Bool
deriving DecidableEq

/-- The raw (unclamped) weather score computed inside
`get_optimal_weather_window` for one daily entry. -/
def rawScore (requires_dry_weather : Bool) (e : DailyEntry) : ℚ :=
  let precipitation := e.precipitation_sum.getD 0
  let tmax := e.temperature_2m_max
  let s1 : ℚ := 100
  let s2 : ℚ :=
    if requires_dry_weather then
      if 0 < precipitation then s1 - precipitation * 20 else s1
    else
      if 10 < precipitation then s1 - 30 else s1
  if pyTruthy tmax ∧ 20 ≤ tmax.getD 0 ∧ tmax.getD 0 ≤ 30 then s2 + 10
  else if pyTruthy tmax ∧ (tmax.getD 0 < 15 ∨ 35 < tmax.getD 0) then s2 - 20
  else s2

/-- The window record appended for one in-range daily entry: the reported
score is clamped at 0, while the suitability flag thresholds the raw score. -/
def mkWindow (requires_dry_weather : Bool) (e : DailyEntry) : WeatherWindow :=
  { date := e.date
    weather_score := max 0 (rawScore requires_dry_weather e)
    precipitation := e.precipitation_sum.getD 0
    temperature_max := e.temperature_2m_max
    temperature_min := e.temperature_2m_min
    is_suitable := decide (70 ≤ rawScore requires_dry_weather e) }

/-- Embedding of `WeatherService.get_optimal_weather_window`: score every daily entry in
`[start_date, end_date]` (inclusive) and return the windows sorted by score
descending with Python's stable sort. -/
def get_optimal_weather_window (weather_data : WeatherData)
    (start_date end_date : Int) (requires_dry_weather : Bool) : List WeatherWindow :=
  pySortDesc (fun w => w.weather_score)
    ((weather_data.daily.filter
        (fun e => decide (start_date ≤ e.date ∧ e.date ≤ end_date))).map
      (mkWindow requires_dry_weather))

/-! ### Cost and yield estimators (`app/decision_tree/engine.py`) -/

/-- Embedding of `DecisionTreeEngine._estimate_operation_cost`: the `cost_estimates` dict
lookup with default `1000 * area_hectares`.  Crop/operation enums are `str`
enums in the source, so both are modelled by `String`. -/
def _estimate_operation_cost (operation_type : String) (area_hectares : ℚ) : ℚ :=
  if operation_type = "land_preparation" then 5000 * area_hectares
  else if operation_type = "planting" then 3000 * area_hectares
  else if operation_type = "fertilization" then 2000 * area_hectares
  else if operation_type = "irrigation" then 1000 * area_hectares
  else if operation_type = "pest_control" then 1500 * area_hectares
  else if operation_type = "harvesting" then 4000 * area_hectares
  else 1000 * area_hectares

/-- The `base_yields` dict of `_predict_yield` (default 20000). -/
def baseYieldOf (crop_type : String) : ℚ :=
  if crop_type = "coconut" then 50000
  else if crop_type = "corn" then 30000
  else if crop_type = "rice" then 40000
  else 20000

/-- The `impact_factors` dict of `_predict_yield` (default 0.1). -/
def impactFactorOf (operation_type : String) : ℚ :=
  if operation_type = "land_preparation" then 0.1
  else if operation_type = "planting" then 0.15
  else if operation_type = "fertilization" then 0.25
  else if operation_type = "irrigation" then 0.2
  else if operation_type = "pest_control" then 0.15
  else if operation_type = "harvesting" then 0.15
  else 0.1

/-- Embedding of `DecisionTreeEngine._predict_yield`. -/
def _predict_yield (crop_type operation_type : String)
    (weather_score area_hectares : ℚ) : ℚ :=
  let base_yield := baseYieldOf crop_type
  let impact := impactFactorOf operation_type
  let weather_multiplier : ℚ := 0.5 + weather_score / 100
  base_yield * area_hectares * impact * weather_multiplier

/-! ### The recommendation procedure (`DecisionTreeEngine.predict_optimal_date`) -/

/-- The relevant columns of a `Field` row, supplied by the caller in place of
the database lookup (`db.query(Field)...first()`, modelled as `Option`). -/
structure FarmField where
  id : Int
  name : String
  crop_type : String
  area_hectares : ℚ
  planting_date : Option Int
deriving DecidableEq

/-- Schema `DecisionTreeRequest`: `budget_constraint` is optional. -/
structure DecisionTreeRequest where
  field_id : Int
  operation_type : String
  budget_constraint : Option ℚ
deriving DecidableEq

/-- A window dict after the budget pass of `predict_optimal_date` annotated it
in place; the two yield fields are absent (`none`) when only the relaxation
pass touched the window. -/
structure AnnotatedWindow where
  window : WeatherWindow
  estimated_cost : ℚ
  budget_ok : Bool
  predicted_yield_value : Option ℚ
  net_financial_return : Option ℚ
deriving DecidableEq

/-- Rendering of Python's `f"{x:.2f}"` on our exact rationals: sign, integer
part, and two decimal digits of the rounded hundredths. -/
def fmt2 (q : ℚ) : String :=
  let n : Int := round (|q| * 100)
  let sign := if q < 0 ∧ n ≠ 0 then "-" else ""
  let whole := n / 100
  let frac := n % 100
  sign ++ toString whole ++ "." ++ (if frac < 10 then "0" else "") ++ toString frac

/-- Schema `DecisionTreeResponse`. -/
structure DecisionTreeResponse where
  recommended_date : Int
  confidence_score : ℚ
  estimated_cost : ℚ
  weather_risk : String
  net_financial_return : Option ℚ
  recommendation_reason : String
deriving DecidableEq

/-- Sort key of the final `suitable_windows.sort(...)`: the pair
`(net return or 0, weather score)` compared lexicographically, as Python
compares tuples. -/
def annotatedKey (a : AnnotatedWindow) : Lex (ℚ × ℚ) :=
  toLex (a.net_financial_return.getD 0, a.window.weather_score)

/-- First budget pass of `predict_optimal_date` over one window: skip it when
a truthy budget constraint is exceeded, otherwise annotate it with cost,
`budget_ok = True`, predicted yield and net financial return. -/
def budgetPassStep (field : FarmField) (request : DecisionTreeRequest)
    (window : WeatherWindow) : Option AnnotatedWindow :=
  let estimated_cost := _estimate_operation_cost request.operation_type field.area_hectares
  if pyTruthy request.budget_constraint ∧ request.budget_constraint.getD 0 < estimated_cost then
    none
  else
    let predicted_yield :=
      _predict_yield field.crop_type request.operation_type window.weather_score
        field.area_hectares
    some { window := window
           estimated_cost := estimated_cost
           budget_ok := true
           predicted_yield_value := some predicted_yield
           net_financial_return := some (predicted_yield - estimated_cost) }

/-- Relaxation pass of `predict_optimal_date` over one window: annotate with
cost and the within-budget flag only (no yield, no net return). -/
def relaxStep (field : FarmField) (request : DecisionTreeRequest)
    (window : WeatherWindow) : AnnotatedWindow :=
  let estimated_cost := _estimate_operation_cost request.operation_type field.area_hectares
  { window := window
    estimated_cost := estimated_cost
    budget_ok :=
      if pyTruthy request.budget_constraint then
        decide (estimated_cost ≤ request.budget_constraint.getD 0)
      else true
    predicted_yield_value := none
    net_financial_return := none }

/-- Embedding of `DecisionTreeEngine.predict_optimal_date`, with the database row and the
current day supplied by the caller.  Exceptions are modelled in
`Except String`. -/
def predict_optimal_date (field? : Option FarmField) (request : DecisionTreeRequest)
    (weather_data : WeatherData) (now : Int) : Except String DecisionTreeResponse :=
  match field? with
  | none => .error ("Field with id " ++ toString request.field_id ++ " not found")
  | some field =>
    let start_date := now
    let end_date := start_date + 30
    let firstTry := get_optimal_weather_window weather_data start_date end_date true
    let optimal_windows :=
      if firstTry.isEmpty then
        get_optimal_weather_window weather_data start_date end_date false
      else firstTry
    if optimal_windows.isEmpty then
      .error "No suitable weather windows found in the next 30 days"
    else
      let firstPass := optimal_windows.filterMap (budgetPassStep field request)
      let suitable_windows :=
        if firstPass.isEmpty then optimal_windows.map (relaxStep field request)
        else firstPass
      match pySortDesc annotatedKey suitable_windows with
      | [] => .error "list index out of range"
      | best_window :: _ =>
        let weather_risk :=
          if 10 < best_window.window.precipitation then "high"
          else if 5 < best_window.window.precipitation then "medium"
          else "low"
        let reason1 :=
          if 80 ≤ best_window.window.weather_score then "Excellent weather conditions"
          else if 60 ≤ best_window.window.weather_score then "Good weather conditions"
          else "Acceptable weather conditions"
        let reason2 :=
          if best_window.budget_ok then "Within budget constraints"
          else "Estimated cost: " ++ fmt2 best_window.estimated_cost ++ " PHP"
        .ok { recommended_date := best_window.window.date
              confidence_score := min 0.95 (best_window.window.weather_score / 100)
              estimated_cost := best_window.estimated_cost
              weather_risk := weather_risk
              net_financial_return := best_window.net_financial_return
              recommendation_reason := reason1 ++ "; " ++ reason2 }

/-! ### Schedule generation (`app/scheduling/service.py`) -/

/-- Lookup `DecisionTreeEngine.crop_parameters[crop]["growth_stages"].get(op, 7)`,
after `crop_parameters.get(field.crop_type, crop_parameters["corn"])`:
unknown crops use the corn calendar, unknown operations 7 days. -/
def growthStageDays (crop_type operation : String) : Int :=
  if crop_type = "coconut" then
    if operation = "land_preparation" then 7
    else if operation = "planting" then 1
    else if operation = "fertilization" then 30
    else if operation = "irrigation" then 7
    else if operation = "pest_control" then 15
    else if operation = "harvesting" then 180
    else 7
  else if crop_type = "rice" then
    if operation = "land_preparation" then 14
    else if operation = "planting" then 1
    else if operation = "fertilization" then 25
    else if operation = "irrigation" then 1
    else if operation = "pest_control" then 20
    else if operation = "harvesting" then 120
    else 7
  else
    if operation = "land_preparation" then 7
    else if operation = "planting" then 1
    else if operation = "fertilization" then 21
    else if operation = "irrigation" then 3
    else if operation = "pest_control" then 14
    else if operation = "harvesting" then 90
    else 7

/-- Embedding of `SchedulingService._calculate_priority`. -/
def _calculate_priority (operation : String) : Int :=
  if operation = "land_preparation" then 1
  else if operation = "planting" then 2
  else if operation = "fertilization" then 3
  else if operation = "irrigation" then 4
  else if operation = "pest_control" then 3
  else if operation = "harvesting" then 1
  else 3

/-- The default operation list used when the caller passes none. -/
def defaultOperations : List String :=
  ["land_preparation", "planting", "fertilization", "irrigation",
   "pest_control", "harvesting"]

/-- Python's `str.title()`: upper-case every alphabetic character that does
not follow an alphabetic character, lower-case the other alphabetic ones. -/
def pyTitle (s : String) : String :=
  let step := fun (acc : List Char × Bool) (c : Char) =>
    if c.isAlpha then
      ((if acc.2 then c.toLower else c.toUpper) :: acc.1, true)
    else (c :: acc.1, false)
  String.mk (s.toList.foldl step ([], false)).1.reverse

/-- The fields of a `ScheduledTask` row that `generate_optimized_schedule`
determines (persistence columns such as `user_id`/`status` are set by the
out-of-scope storage layer). -/
structure ScheduledTaskRec where
  task_type : String
  task_name : String
  description : String
  scheduled_date : Int
  estimated_cost : ℚ
  requires_dry_weather : Bool
  priority : Int
  field_id : Int
deriving DecidableEq

/-- The date the loop body of `generate_optimized_schedule` picks for one
operation, given the running anchor date. -/
def pickDate (weather_data : WeatherData) (crop_type operation : String)
    (current_date : Int) : Int :=
  let proposed_date := current_date + growthStageDays crop_type operation
  let ws := check_weather_suitability weather_data proposed_date true
  if ws.is_suitable then proposed_date
  else
    let optimal_windows :=
      get_optimal_weather_window weather_data (proposed_date - 7) (proposed_date + 7) true
    match optimal_windows with
    | [] => proposed_date
    | w0 :: _ =>
      match optimal_windows.find? (fun w => w.is_suitable) with
      | some w => w.date
      | none => w0.date

/-- The scheduling loop of `generate_optimized_schedule`: one task per
operation, the anchor date advancing to each chosen date. -/
def scheduleOps (field : FarmField) (weather_data : WeatherData) :
    List String → Int → List ScheduledTaskRec
  | [], _ => []
  | operation :: rest, current_date =>
    let optimal_date := pickDate weather_data field.crop_type operation current_date
    let task : ScheduledTaskRec :=
      { task_type := operation
        task_name := pyTitle (operation.replace "_" " ") ++ " - " ++ field.name
        description := "Automatically scheduled " ++ operation ++ " for " ++ field.crop_type
        scheduled_date := optimal_date
        estimated_cost := _estimate_operation_cost operation field.area_hectares
        requires_dry_weather := true
        priority := _calculate_priority operation
        field_id := field.id }
    task :: scheduleOps field weather_data rest optimal_date

/-- Embedding of `SchedulingService.generate_optimized_schedule`, with the field row, the
already-fetched forecast and the current day supplied by the caller.  A
falsy `operations` argument (`None` or `[]`) selects the default sequence;
a missing field raises. -/
def generate_optimized_schedule (field? : Option FarmField)
    (operations : List String) (weather_data : WeatherData) (now : Int) :
    Except String (List ScheduledTaskRec) :=
  match field? with
  | none => .error "Field not found"
  | some field =>
    let ops := if operations.isEmpty then defaultOperations else operations
    let current_date := field.planting_date.getD now
    .ok (scheduleOps field weather_data ops current_date)

/-! ### Partial budgeting (`app/financial/partial_budgeting.py`) -/

/-- Schema `PartialBudgetingInput`. -/
structure PartialBudgetingInput where
  added_returns : ℚ
  reduced_costs : ℚ
  added_costs : ℚ
  reduced_returns : ℚ
deriving DecidableEq

/-- Schema `PartialBudgetingResponse`. -/
structure PartialBudgetingResponse where
  net_benefit : ℚ
  is_profitable : Bool
  recommendation : String
deriving DecidableEq

/-- Embedding of `PartialBudgeting.calculate_net_benefit`. -/
def calculate_net_benefit (input_data : PartialBudgetingInput) : PartialBudgetingResponse :=
  let total_benefits := input_data.added_returns + input_data.reduced_costs
  let total_costs := input_data.added_costs + input_data.reduced_returns
  let net_benefit := total_benefits - total_costs
  let is_profitable := decide (0 < net_benefit)
  let recommendation :=
    if 0 < net_benefit then
      "Proceed with the change. Expected net benefit: " ++ fmt2 net_benefit ++ " PHP"
    else if net_benefit = 0 then
      "The change is neutral. Consider other factors before proceeding."
    else
      "Do not proceed. Expected net loss: " ++ fmt2 |net_benefit| ++ " PHP"
  { net_benefit := net_benefit
    is_profitable := is_profitable
    recommendation := recommendation }

/-- Python `dict.get(k, default)` over an insertion-ordered association list
with unique keys. -/
def dictGet (d : List (String × ℚ)) (k : String) (default : ℚ) : ℚ :=
  match d.find? (fun p => p.1 == k) with
  | some p => p.2
  | none => default

/-- The `ratios` dict built by `optimize_resource_allocation`: one entry per
resource, in insertion order, valued `benefit / cost` (0 when `cost ≤ 0`),
where a missing `"{resource}_benefit"` hint defaults to `cost * 1.5`. -/
def resourceRatios (resources constraints : List (String × ℚ)) : List (String × ℚ) :=
  resources.map fun p =>
    let benefit := dictGet constraints (p.1 ++ "_benefit") (p.2 * 1.5)
    (p.1, if 0 < p.2 then benefit / p.2 else 0)

/-- The allocation loop of `optimize_resource_allocation` over the ranked
resources: fund fully while the cost fits, otherwise hand over whatever
budget remains; `break` as soon as the remaining budget is `≤ 0`. -/
def allocateLoop (resources : List (String × ℚ)) :
    List (String × ℚ) → ℚ → List (String × ℚ)
  | [], _ => []
  | (resource, _) :: rest, remaining_budget =>
    let resource_cost := dictGet resources resource 0
    if resource_cost ≤ remaining_budget then
      (resource, resource_cost) ::
        (if remaining_budget - resource_cost ≤ 0 then []
         else allocateLoop resources rest (remaining_budget - resource_cost))
    else
      [(resource, remaining_budget)]

/-- Embedding of `PartialBudgeting.optimize_resource_allocation`: rank the resources by
benefit/cost ratio descending (stable) and run the greedy allocation loop on
`constraints["budget"]` (default 0). -/
def optimize_resource_allocation (resources constraints : List (String × ℚ)) :
    List (String × ℚ) :=
  let total_budget := dictGet constraints "budget" 0
  let sorted_resources := pySortDesc (fun p => p.2) (resourceRatios resources constraints)
  allocateLoop resources sorted_resources total_budget

/-! ## Claim C6: the cost table -/

/-- The per-hectare unit-cost table exactly as the specification lists it
(default 1000 for unknown operation types). -/
def unitCostSpec (operation_type : String) : ℚ :=
  if operation_type = "land_preparation" then 5000
  else if operation_type = "planting" then 3000
  else if operation_type = "fertilization" then 2000
  else if operation_type = "irrigation" then 1000
  else if operation_type = "pest_control" then 1500
  else if operation_type = "harvesting" then 4000
  else 1000

theorem estimate_cost_eq_unit (operation_type : String) (a : ℚ) :
    _estimate_operation_cost operation_type a = unitCostSpec operation_type * a := by
  unfold _estimate_operation_cost unitCostSpec
  split_ifs <;> ring

/-- C6: for every area and operation type the estimated cost is the spec's
per-hectare unit cost times the area; operation types outside the table cost
exactly `1000 × area`; and scaling the area by any factor `k` scales the cost
by exactly `k`. -/
theorem C6_cost_table (operation_type : String) (a k : ℚ) :
    _estimate_operation_cost operation_type a = unitCostSpec operation_type * a
    ∧ (operation_type ∉ ["land_preparation", "planting", "fertilization",
        "irrigation", "pest_control", "harvesting"] →
        _estimate_operation_cost operation_type a = 1000 * a)
    ∧ _estimate_operation_cost operation_type (k * a)
        = k * _estimate_operation_cost operation_type a := by
  refine ⟨estimate_cost_eq_unit operation_type a, ?_, ?_⟩
  · intro h
    simp only [List.mem_cons, List.not_mem_nil, or_false, not_or] at h
    obtain ⟨h1, h2, h3, h4, h5, h6⟩ := h
    unfold _estimate_operation_cost
    rw [if_neg h1, if_neg h2, if_neg h3, if_neg h4, if_neg h5, if_neg h6]
  · unfold _estimate_operation_cost
    split_ifs <;> ring

/-- C6 witness: the unknown operation type `"weeding"` at area 2 and scaling
factor 3. -/
theorem C6_cost_table_witness :
    ("weeding" ∉ ["land_preparation", "planting", "fertilization",
        "irrigation", "pest_control", "harvesting"])
    ∧ _estimate_operation_cost "weeding" 2 = 1000 * 2
    ∧ _estimate_operation_cost "weeding" (3 * 2) = 3 * _estimate_operation_cost "weeding" 2 :=
  ⟨by decide, (C6_cost_table "weeding" 2 3).2.1 (by decide), (C6_cost_table "weeding" 2 3).2.2⟩

/-! ## Claim C4: the estimators never validate their inputs -/

/-- C4 counterexample: at the explicitly negative area −1 both estimators
return plain (negative) numbers instead of failing with an `InvalidInput`
error — in the source neither function contains any validation or `raise`,
so their embeddings are total functions. -/
theorem C4_counterexample :
    _estimate_operation_cost "planting" (-1) = -3000
    ∧ _predict_yield "corn" "planting" 100 (-1) = -6750
    ∧ (-1 : ℚ) < 0 := by
  refine ⟨?_, ?_, by norm_num⟩
  · simp only [_estimate_operation_cost, String.reduceEq, reduceIte]
    norm_num
  · simp only [_predict_yield, baseYieldOf, impactFactorOf, String.reduceEq, reduceIte]
    norm_num

/-- C4 (amended): the estimators perform no input validation at all and have
no failure modes: both are total pure functions of their arguments, returning
the linearly scaled cost and the yield product for every rational area,
negative values included. -/
theorem C4_estimators_total (crop_type operation_type : String) (weather_score area : ℚ) :
    _estimate_operation_cost operation_type area = unitCostSpec operation_type * area
    ∧ _predict_yield crop_type operation_type weather_score area
        = baseYieldOf crop_type * area * impactFactorOf operation_type
            * (1 / 2 + weather_score / 100) := by
  constructor
  · exact estimate_cost_eq_unit operation_type area
  · unfold _predict_yield
    norm_num

/-! ## Claims C7 and C8: partial budgeting -/

/-- C7: `calculate_net_benefit` returns
`netBenefit = (addedReturns + reducedCosts) − (addedCosts + reducedReturns)`,
`isProfitable = (netBenefit > 0)`, and a recommendation that is the proceed
phrasing carrying the positive value when the net benefit is positive, the
neutral phrasing when it is exactly 0, and the do-not-proceed phrasing
carrying the absolute loss when it is negative. -/
theorem C7_net_benefit (inp : PartialBudgetingInput) :
    (calculate_net_benefit inp).net_benefit
        = (inp.added_returns + inp.reduced_costs) - (inp.added_costs + inp.reduced_returns)
    ∧ (calculate_net_benefit inp).is_profitable
        = decide (0 < (calculate_net_benefit inp).net_benefit)
    ∧ (0 < (calculate_net_benefit inp).net_benefit →
        (calculate_net_benefit inp).recommendation
          = "Proceed with the change. Expected net benefit: "
              ++ fmt2 (calculate_net_benefit inp).net_benefit ++ " PHP")
    ∧ ((calculate_net_benefit inp).net_benefit = 0 →
        (calculate_net_benefit inp).recommendation
          = "The change is neutral. Consider other factors before proceeding.")
    ∧ ((calculate_net_benefit inp).net_benefit < 0 →
        (calculate_net_benefit inp).recommendation
          = "Do not proceed. Expected net loss: "
              ++ fmt2 |(calculate_net_benefit inp).net_benefit| ++ " PHP") := by
  refine ⟨rfl, rfl, fun h => ?_, fun h => ?_, fun h => ?_⟩
  · simp only [calculate_net_benefit] at h ⊢
    rw [if_pos h]
  · simp only [calculate_net_benefit] at h ⊢
    rw [if_neg (by simp [h]), if_pos h]
  · simp only [calculate_net_benefit] at h ⊢
    rw [if_neg (not_lt.mpr h.le), if_neg (ne_of_lt h)]

/-- C7 witness: the spec's scenario C input (1000, 200, 500, 0). -/
theorem C7_net_benefit_witness :
    (calculate_net_benefit ⟨1000, 200, 500, 0⟩).net_benefit = 700
    ∧ (calculate_net_benefit ⟨1000, 200, 500, 0⟩).recommendation
        = "Proceed with the change. Expected net benefit: "
            ++ fmt2 (calculate_net_benefit ⟨1000, 200, 500, 0⟩).net_benefit ++ " PHP" :=
  ⟨by norm_num [calculate_net_benefit],
   (C7_net_benefit ⟨1000, 200, 500, 0⟩).2.2.1 (by norm_num [calculate_net_benefit])⟩

/-- C8: swapping the added/reduced pairs (addedReturns ↔ reducedReturns and
reducedCosts ↔ addedCosts) negates the net benefit. -/
theorem C8_swap_negates (inp : PartialBudgetingInput) :
    (calculate_net_benefit
        ⟨inp.reduced_returns, inp.added_costs, inp.reduced_costs, inp.added_returns⟩).net_benefit
      = -(calculate_net_benefit inp).net_benefit := by
  unfold calculate_net_benefit
  ring

/-! ## Claim C10: a day absent from the forecast is unconditionally suitable -/

/-- C10: when no daily entry matches the requested date (in particular for an
entirely empty forecast), `check_weather_suitability` returns
`isSuitable = true` with empty reasons and risks, for either value of
`requires_dry_weather`. -/
theorem C10_missing_day (weather_data : WeatherData) (date : Int) (dry : Bool)
    (h : ∀ e ∈ weather_data.daily, e.date ≠ date) :
    check_weather_suitability weather_data date dry = ⟨true, [], []⟩ := by
  unfold check_weather_suitability
  rw [List.find?_eq_none.mpr]
  intro e he
  simpa using h e he

/-- C10 witness: a one-day forecast whose date differs from the request. -/
theorem C10_missing_day_witness :
    check_weather_suitability ⟨[⟨5, some 3, some 40, some 0⟩]⟩ 3 true = ⟨true, [], []⟩ :=
  C10_missing_day ⟨[⟨5, some 3, some 40, some 0⟩]⟩ 3 true (by decide)

/-! ## Claim C5: single-day suitability check -/

/-- C5 counterexample: a matching day with min temperature exactly 0 (which
is below 10, so the claim requires a low-temperature-stress risk) gets an
empty risk list: the guard `if temp_min and temp_min < 10` treats the number
0 as falsy and skips the check. -/
theorem C5_counterexample :
    (check_weather_suitability ⟨[⟨0, some 0, some 20, some 0⟩]⟩ 0 true).risks = []
    ∧ ((0 : ℚ) < 10) := by
  refine ⟨?_, by norm_num⟩
  simp only [check_weather_suitability, checkEntry, pyTruthy, List.find?, Int.reduceBEq,
    reduceIte, Option.getD]
  norm_num

/-- C5 (amended): for the first forecast-day record matching the requested
date, `check_weather_suitability` flags `isSuitable = false` exactly when
`requiresDryWeather` holds and the day's precipitation is > 0 (with the
matching rain reason string); it appends the high-temperature risk exactly
when the max temperature is truthy (present and nonzero) and > 35, and the
low-temperature risk exactly when the min temperature is truthy and < 10 —
in particular a min temperature of exactly 0 yields no risk.  Reasons and
risks are returned as strings in the result record; nothing is raised. -/
theorem C5_single_day (weather_data : WeatherData) (date : Int) (dry : Bool)
    (en : DailyEntry)
    (h : weather_data.daily.find? (fun e => e.date == date) = some en) :
    (check_weather_suitability weather_data date dry).is_suitable
        = !(dry && decide (0 < en.precipitation_sum.getD 0))
    ∧ (check_weather_suitability weather_data date dry).risks
        = (if dry ∧ 0 < en.precipitation_sum.getD 0 then ["Chemical runoff risk"] else [])
          ++ (if pyTruthy en.temperature_2m_max ∧ 35 < en.temperature_2m_max.getD 0 then
                ["High temperature stress"] else [])
          ++ (if pyTruthy en.temperature_2m_min ∧ en.temperature_2m_min.getD 0 < 10 then
                ["Low temperature stress"] else [])
    ∧ (check_weather_suitability weather_data date dry).reasons
        = (if dry ∧ 0 < en.precipitation_sum.getD 0 then
            ["Rain expected (" ++ toString (en.precipitation_sum.getD 0) ++ " mm)"]
          else []) := by
  unfold check_weather_suitability
  rw [h]
  simp only [checkEntry]
  split_ifs with h1 h2 h3 <;> cases dry <;>
    simp_all [Bool.and_eq_true, decide_eq_true_eq]

/-- C5 witness: a matching rainy, hot day with min temperature 5 collects the
rain reason and all three risk strings. -/
theorem C5_single_day_witness :
    (check_weather_suitability ⟨[⟨0, some 5, some 40, some 5⟩]⟩ 0 true).risks
      = ["Chemical runoff risk", "High temperature stress", "Low temperature stress"] := by
  have h := (C5_single_day ⟨[⟨0, some 5, some 40, some 5⟩]⟩ 0 true
    ⟨0, some 5, some 40, some 5⟩ (by rfl)).2.1
  rw [h]
  simp only [pyTruthy, Option.getD]
  norm_num

/-! ## Claim C1: window scoring and ranking -/

/-- The per-day score exactly as claim C1 states it: start at 100; when dry
weather is required subtract `precipitation × 20`, otherwise subtract a flat
30 when precipitation > 10; add 10 when the max temperature is within
[20, 30]; subtract 20 when it is < 15 or > 35; clamp at 0. -/
def claimScoreC1 (requiresDry : Bool) (e : DailyEntry) : ℚ :=
  let p := e.precipitation_sum.getD 0
  let rainAdj : ℚ := if requiresDry then -(p * 20) else if 10 < p then -30 else 0
  let tempAdj : ℚ :=
    match e.temperature_2m_max with
    | none => 0
    | some t => if 20 ≤ t ∧ t ≤ 30 then 10 else if t < 15 ∨ 35 < t then -20 else 0
  max 0 (100 + rainAdj + tempAdj)

/-- C1 counterexample: a single dry day whose max temperature is exactly 0.
The claim's scoring rule subtracts 20 (0 < 15), giving 80, but the code's
truthiness guard `if temp_max and ...` skips the adjustment for the falsy
number 0, so the returned window scores 100. -/
theorem C1_counterexample :
    ((get_optimal_weather_window ⟨[⟨0, some 0, some 0, none⟩]⟩ 0 0 true).map
        (fun w => w.weather_score)) = [100]
    ∧ claimScoreC1 true ⟨0, some 0, some 0, none⟩ = 80
    ∧ (100 : ℚ) ≠ 80 := by
  refine ⟨?_, ?_, by norm_num⟩
  · unfold get_optimal_weather_window pySortDesc
    norm_num [mkWindow, rawScore, pyTruthy, List.filter, List.insertionSort,
      List.orderedInsert]
  · simp only [claimScoreC1, Option.getD]
    norm_num

/-- The per-day score of the amended claim C1: as `claimScoreC1`, except
that both temperature adjustments apply only when the max temperature is
truthy in Python's sense (present and nonzero), and the dry-weather rain
subtraction only when precipitation > 0. -/
def amendedScoreC1 (requiresDry : Bool) (e : DailyEntry) : ℚ :=
  let p := e.precipitation_sum.getD 0
  let rainAdj : ℚ :=
    if requiresDry then (if 0 < p then -(p * 20) else 0)
    else if 10 < p then -30 else 0
  let tempAdj : ℚ :=
    match e.temperature_2m_max with
    | none => 0
    | some t =>
      if t = 0 then 0
      else if 20 ≤ t ∧ t ≤ 30 then 10
      else if t < 15 ∨ 35 < t then -20
      else 0
  100 + rainAdj + tempAdj

theorem rawScore_eq_amended (dry : Bool) (e : DailyEntry) :
    rawScore dry e = amendedScoreC1 dry e := by
  unfold rawScore amendedScoreC1
  cases e.temperature_2m_max with
  | none =>
    simp only [pyTruthy, Option.getD, Bool.false_eq_true, false_and, if_false]
    split_ifs <;> ring
  | some t =>
    simp only [pyTruthy, Option.getD, decide_eq_true_eq]
    rcases eq_or_ne t 0 with ht | ht
    · subst ht
      simp only [ne_eq, not_true_eq_false, false_and, if_false, if_pos rfl]
      split_ifs <;> ring
    · rw [if_neg ht]
      simp only [ht, ne_eq, not_false_eq_true, true_and]
      split_ifs <;> ring

/-- C1 (amended): `get_optimal_weather_window` returns exactly one window per
daily entry with date in `[startDate, endDate]` inclusive (a permutation of
the per-entry windows), sorted by score descending, ties preserving the
original day order; each window carries its entry's date, the clamped
amended score, and `isSuitable` exactly when the clamped score is ≥ 70.  The
amended score differs from the claim only in the Python-truthiness guards
recorded in `amendedScoreC1`. -/
theorem C1_rank_windows (weather_data : WeatherData) (start_date end_date : Int)
    (dry : Bool) :
    List.Perm (get_optimal_weather_window weather_data start_date end_date dry)
      ((weather_data.daily.filter
          (fun e => decide (start_date ≤ e.date ∧ e.date ≤ end_date))).map (mkWindow dry))
    ∧ (get_optimal_weather_window weather_data start_date end_date dry).Sorted
        (fun a b => b.weather_score ≤ a.weather_score)
    ∧ (∀ q : ℚ,
        (get_optimal_weather_window weather_data start_date end_date dry).filter
            (fun w => decide (w.weather_score = q))
          = ((weather_data.daily.filter
                (fun e => decide (start_date ≤ e.date ∧ e.date ≤ end_date))).map
              (mkWindow dry)).filter (fun w => decide (w.weather_score = q)))
    ∧ (∀ e : DailyEntry,
        (mkWindow dry e).date = e.date
        ∧ (mkWindow dry e).weather_score = max 0 (amendedScoreC1 dry e)
        ∧ (mkWindow dry e).is_suitable = decide (70 ≤ max 0 (amendedScoreC1 dry e))) := by
  refine ⟨pySortDesc_perm _ _, pySortDesc_sorted _ _, pySortDesc_stable _ _, fun e => ?_⟩
  refine ⟨rfl, ?_, ?_⟩
  · show max 0 (rawScore dry e) = max 0 (amendedScoreC1 dry e)
    rw [rawScore_eq_amended]
  · show decide (70 ≤ rawScore dry e) = decide (70 ≤ max 0 (amendedScoreC1 dry e))
    rw [rawScore_eq_amended]
    congr 1
    rw [eq_iff_iff]
    constructor
    · exact fun h => le_max_of_le_right h
    · intro h
      rcases max_choice 0 (amendedScoreC1 dry e) with hm | hm <;> rw [hm] at h
      · linarith
      · exact h

/-! ## Claim C9: greedy budget allocation -/

/-- The greedy allocation rule exactly as claim C9 states it, over the ranked
resources paired with their costs: fund each resource fully while the budget
covers its cost, hand whatever is left to the first resource that cannot be
fully funded, and stop once the budget is exhausted. -/
def claimGreedy (budget : ℚ) : List (String × ℚ) → List (String × ℚ)
  | [] => []
  | (resource, cost) :: rest =>
    if cost ≤ budget then
      (resource, cost) ::
        (if budget - cost = 0 then [] else claimGreedy (budget - cost) rest)
    else [(resource, budget)]

theorem allocateLoop_eq_claimGreedy (resources : List (String × ℚ)) :
    ∀ (l : List (String × ℚ)) (b : ℚ),
      allocateLoop resources l b
        = claimGreedy b (l.map fun p => (p.1, dictGet resources p.1 0))
  | [], _ => rfl
  | (resource, ratio) :: rest, b => by
    simp only [allocateLoop, List.map, claimGreedy]
    by_cases hle : dictGet resources resource 0 ≤ b
    · rw [if_pos hle, if_pos hle]
      have hz : (b - dictGet resources resource 0 ≤ 0)
          ↔ (b - dictGet resources resource 0 = 0) := by
        constructor
        · intro hle0
          have : 0 ≤ b - dictGet resources resource 0 := by linarith
          linarith
        · intro hz0
          exact le_of_eq hz0
      by_cases h0 : b - dictGet resources resource 0 = 0
      · rw [if_pos (hz.mpr h0), if_pos h0]
      · rw [if_neg (fun hc => h0 (hz.mp hc)), if_neg h0,
          allocateLoop_eq_claimGreedy resources rest _]
    · rw [if_neg hle, if_neg hle]

theorem allocateLoop_sum_le (resources : List (String × ℚ)) :
    ∀ (l : List (String × ℚ)) (b : ℚ), 0 ≤ b →
      ((allocateLoop resources l b).map (fun p => p.2)).sum ≤ b
  | [], b, hb => by
    simpa [allocateLoop] using hb
  | (resource, ratio) :: rest, b, hb => by
    simp only [allocateLoop]
    by_cases hle : dictGet resources resource 0 ≤ b
    · rw [if_pos hle]
      by_cases h0 : b - dictGet resources resource 0 ≤ 0
      · rw [if_pos h0]
        simpa using hle
      · rw [if_neg h0]
        have hrec := allocateLoop_sum_le resources rest
          (b - dictGet resources resource 0) (by linarith)
        simp only [List.map, List.sum_cons]
        linarith
    · rw [if_neg hle]
      simp

/-- C9: the resources are ranked by benefit/cost ratio descending (missing
benefit hints defaulting to 1.5 × cost inside `resourceRatios`), with ties
keeping the original resource order (the ranking is a stable descending sort
of the ratio list); the allocation then follows exactly the claim's greedy
rule over the ranked resources with their costs; and for a non-negative
budget the total allocated never exceeds it. -/
theorem C9_allocation (resources constraints : List (String × ℚ))
    (hb : 0 ≤ dictGet constraints "budget" 0) :
    List.Perm (pySortDesc (fun p => p.2) (resourceRatios resources constraints))
      (resourceRatios resources constraints)
    ∧ (pySortDesc (fun p => p.2) (resourceRatios resources constraints)).Sorted
        (fun a b => b.2 ≤ a.2)
    ∧ (∀ q : ℚ,
        (pySortDesc (fun p => p.2) (resourceRatios resources constraints)).filter
            (fun p => decide (p.2 = q))
          = (resourceRatios resources constraints).filter (fun p => decide (p.2 = q)))
    ∧ optimize_resource_allocation resources constraints
        = claimGreedy (dictGet constraints "budget" 0)
            ((pySortDesc (fun p => p.2) (resourceRatios resources constraints)).map
              fun p => (p.1, dictGet resources p.1 0))
    ∧ ((optimize_resource_allocation resources constraints).map (fun p => p.2)).sum
        ≤ dictGet constraints "budget" 0 := by
  refine ⟨pySortDesc_perm _ _, pySortDesc_sorted _ _, pySortDesc_stable _ _, ?_, ?_⟩
  · exact allocateLoop_eq_claimGreedy resources _ _
  · exact allocateLoop_sum_le resources _ _ hb

/-- C9 witness: the spec's scenario D — resources A:100 and B:200, budget
150, no benefit hints: both default to ratio 1.5, the tie keeps A first, A is
fully funded and B gets the remaining 50, totalling exactly the budget. -/
theorem C9_allocation_witness :
    (0 : ℚ) ≤ dictGet [("budget", 150)] "budget" 0
    ∧ ((optimize_resource_allocation [("A", 100), ("B", 200)]
          [("budget", 150)]).map (fun p => p.2)).sum
        ≤ dictGet [("budget", 150)] "budget" 0
    ∧ optimize_resource_allocation [("A", 100), ("B", 200)] [("budget", 150)]
        = [("A", 100), ("B", 50)] := by
  refine ⟨by norm_num [dictGet, List.find?],
    (C9_allocation [("A", 100), ("B", 200)] [("budget", 150)]
      (by norm_num [dictGet, List.find?])).2.2.2.2, ?_⟩
  have h0 : dictGet [("budget", 150)] "budget" 0 = 150 := by
    simp [dictGet, List.find?]
  have h1 : resourceRatios [("A", 100), ("B", 200)] [("budget", 150)]
      = [("A", 3 / 2), ("B", 3 / 2)] := by
    simp only [resourceRatios, dictGet, List.map, List.find?, String.reduceAppend,
      String.reduceBEq]
    norm_num
  have h2 : pySortDesc (fun p => p.2) [(("A" : String), (3 / 2 : ℚ)), ("B", 3 / 2)]
      = [("A", 3 / 2), ("B", 3 / 2)] := by
    simp only [pySortDesc, descRel, List.insertionSort, List.orderedInsert]
    norm_num
  have h3 : allocateLoop [("A", 100), ("B", 200)]
      [(("A" : String), (3 / 2 : ℚ)), ("B", 3 / 2)] 150 = [("A", 100), ("B", 50)] := by
    simp only [allocateLoop, dictGet, List.find?, String.reduceBEq]
    norm_num
  simp only [optimize_resource_allocation, h0, h1, h2, h3]

/-! ## Claim C2: schedule generation is never partial -/

/-- The chain of naive proposed dates: each operation's date is the previous
chosen date advanced by its growth-stage duration. -/
def proposedChain (crop_type : String) : List String → Int → List Int
  | [], _ => []
  | op :: rest, current =>
    (current + growthStageDays crop_type op)
      :: proposedChain crop_type rest (current + growthStageDays crop_type op)

theorem scheduleOps_empty_forecast (field : FarmField) (weather_data : WeatherData)
    (h : weather_data.daily = []) :
    ∀ (ops : List String) (current : Int),
      ((scheduleOps field weather_data ops current).map (fun t => t.scheduled_date)
          = proposedChain field.crop_type ops current)
      ∧ ((scheduleOps field weather_data ops current).map (fun t => t.task_type) = ops)
  | [], _ => ⟨rfl, rfl⟩
  | op :: rest, current => by
    have hcs : check_weather_suitability weather_data
        (current + growthStageDays field.crop_type op) true = ⟨true, [], []⟩ := by
      unfold check_weather_suitability
      rw [h]
      rfl
    have hpick : pickDate weather_data field.crop_type op current
        = current + growthStageDays field.crop_type op := by
      simp only [pickDate, hcs, eq_self_iff_true, if_true]
    have ih := scheduleOps_empty_forecast field weather_data h rest
      (current + growthStageDays field.crop_type op)
    simp only [scheduleOps, hpick, proposedChain, List.map]
    exact ⟨by rw [ih.1], by rw [ih.2]⟩

/-- C2 counterexample: a field with an entirely empty forecast.  The claim
says the call must fail with a `NoSuitableWindow` error; instead the code
succeeds and returns all six default operations, every suitability check
passing vacuously and every proposed date kept. -/
theorem C2_counterexample :
    ((generate_optimized_schedule (some ⟨2, "G", "corn", 1, some 0⟩) [] ⟨[]⟩ 0).toOption.map
        (fun l => l.map (fun t => (t.task_type, t.scheduled_date))))
      = some [("land_preparation", 7), ("planting", 8), ("fertilization", 29),
              ("irrigation", 32), ("pest_control", 46), ("harvesting", 136)] := by
  decide

/-- C2 (amended/observed): with an entirely empty forecast daily list the
call never fails — the single-day suitability check passes vacuously for
every step, so every operation is scheduled at its naive proposed date and
the full sequence is returned (`generate_optimized_schedule` has no
`NoSuitableWindow` failure path at all; its only error is the missing
field). -/
theorem C2_empty_forecast (field : FarmField) (operations : List String)
    (weather_data : WeatherData) (now : Int) (h : weather_data.daily = []) :
    generate_optimized_schedule (some field) operations weather_data now
      = .ok (scheduleOps field weather_data
          (if operations.isEmpty then defaultOperations else operations)
          (field.planting_date.getD now))
    ∧ ((scheduleOps field weather_data
          (if operations.isEmpty then defaultOperations else operations)
          (field.planting_date.getD now)).map (fun t => t.scheduled_date)
        = proposedChain field.crop_type
            (if operations.isEmpty then defaultOperations else operations)
            (field.planting_date.getD now))
    ∧ ((scheduleOps field weather_data
          (if operations.isEmpty then defaultOperations else operations)
          (field.planting_date.getD now)).map (fun t => t.task_type)
        = (if operations.isEmpty then defaultOperations else operations)) := by
  refine ⟨rfl, ?_, ?_⟩
  · exact (scheduleOps_empty_forecast field weather_data h _ _).1
  · exact (scheduleOps_empty_forecast field weather_data h _ _).2

/-- C2 witness: the concrete field of the counterexample; the six proposed
dates for the corn calendar starting at planting date 0. -/
theorem C2_empty_forecast_witness :
    (scheduleOps ⟨2, "G", "corn", 1, some 0⟩ ⟨[]⟩ defaultOperations 0).map
        (fun t => t.scheduled_date) = proposedChain "corn" defaultOperations 0
    ∧ proposedChain "corn" defaultOperations 0 = [7, 8, 29, 32, 46, 136] := by
  refine ⟨?_, by decide⟩
  have h := (C2_empty_forecast ⟨2, "G", "corn", 1, some 0⟩ [] ⟨[]⟩ 0 rfl).2.1
  simpa using h

/-! ## Claim C3: the budget relaxation pass -/

theorem budgetPassStep_none (field : FarmField) (request : DecisionTreeRequest)
    (hb : pyTruthy request.budget_constraint = true)
    (hover : request.budget_constraint.getD 0
        < _estimate_operation_cost request.operation_type field.area_hectares)
    (win : WeatherWindow) : budgetPassStep field request win = none := by
  simp only [budgetPassStep]
  rw [if_pos ⟨hb, hover⟩]

/-- General description of `predict_optimal_date` on the relaxed-budget path:
when the budget constraint is truthy, the estimated cost exceeds it, and the
dry-weather window list is non-empty, the relaxation pass annotates every
window without computing yield or net return, the final sort falls back to
weather score (all missing net returns count as 0), and the response carries
the highest-scoring window with `net_financial_return = none` and the
over-budget cost phrase. -/
theorem predict_relaxed (field : FarmField) (request : DecisionTreeRequest)
    (weather_data : WeatherData) (now : Int) (w : WeatherWindow) (t : List WeatherWindow)
    (hb : pyTruthy request.budget_constraint = true)
    (hover : request.budget_constraint.getD 0
        < _estimate_operation_cost request.operation_type field.area_hectares)
    (hw : get_optimal_weather_window weather_data now (now + 30) true = w :: t) :
    predict_optimal_date (some field) request weather_data now
      = .ok { recommended_date := w.date
              confidence_score := min 0.95 (w.weather_score / 100)
              estimated_cost :=
                _estimate_operation_cost request.operation_type field.area_hectares
              weather_risk :=
                if 10 < w.precipitation then "high"
                else if 5 < w.precipitation then "medium" else "low"
              net_financial_return := none
              recommendation_reason :=
                (if 80 ≤ w.weather_score then "Excellent weather conditions"
                 else if 60 ≤ w.weather_score then "Good weather conditions"
                 else "Acceptable weather conditions")
                ++ "; "
                ++ ("Estimated cost: "
                    ++ fmt2 (_estimate_operation_cost request.operation_type
                        field.area_hectares)
                    ++ " PHP") } := by
  have hfp : (w :: t).filterMap (budgetPassStep field request) = [] :=
    List.filterMap_eq_nil_iff.mpr fun a _ => budgetPassStep_none field request hb hover a
  have hsorted0 : (w :: t).Sorted (descRel fun x : WeatherWindow => x.weather_score) := by
    rw [← hw]
    exact pySortDesc_sorted _ _
  have hsorted : (List.map (relaxStep field request) (w :: t)).Sorted
      (descRel annotatedKey) := by
    refine List.Pairwise.map _ (fun a b hab => ?_) hsorted0
    show annotatedKey (relaxStep field request b) ≤ annotatedKey (relaxStep field request a)
    show toLex ((0 : ℚ), b.weather_score) ≤ toLex ((0 : ℚ), a.weather_score)
    rw [Prod.Lex.le_iff]
    exact Or.inr ⟨rfl, hab⟩
  have hbadok : (relaxStep field request w).budget_ok = false := by
    simp only [relaxStep]
    rw [if_pos hb]
    exact decide_eq_false (not_le.mpr hover)
  have hss : pySortDesc annotatedKey (List.map (relaxStep field request) (w :: t))
      = List.map (relaxStep field request) (w :: t) :=
    pySortDesc_eq_self annotatedKey hsorted
  simp only [predict_optimal_date, hw, List.isEmpty_cons, Bool.false_eq_true, if_false,
    hfp, List.isEmpty_nil, if_true]
  rw [hss]
  simp only [List.map, hbadok, Bool.false_eq_true, if_false]
  rfl

/-- C3 counterexample: field of 1 ha of corn, operation `"planting"`
(cost 3000), budget 100, and a single perfect forecast day (score 110).
The budget discards the only window, the relaxation pass runs, and the
response's `net_financial_return` is `none`: the relaxation pass never
computed the yield estimate or the net return, although the claim requires
net return = yield − cost = 7200 − 3000 = 4200 for every annotated window. -/
theorem C3_counterexample :
    (predict_optimal_date (some ⟨1, "F", "corn", 1, none⟩) ⟨1, "planting", some 100⟩
        ⟨[⟨1, some 0, some 25, some 15⟩]⟩ 0).toOption.map
        (fun r => r.net_financial_return) = some none
    ∧ _predict_yield "corn" "planting" 110 1
        - _estimate_operation_cost "planting" 1 = 4200 := by
  constructor
  · have hw : get_optimal_weather_window ⟨[⟨1, some 0, some 25, some 15⟩]⟩ 0 (0 + 30) true
        = mkWindow true ⟨1, some 0, some 25, some 15⟩ :: [] := by
      unfold get_optimal_weather_window pySortDesc
      norm_num [List.filter, List.insertionSort]
    have h := predict_relaxed ⟨1, "F", "corn", 1, none⟩ ⟨1, "planting", some 100⟩
      ⟨[⟨1, some 0, some 25, some 15⟩]⟩ 0 (mkWindow true ⟨1, some 0, some 25, some 15⟩) []
      (by simp [pyTruthy]) ?_ hw
    · rw [h]
      rfl
    · simp only [_estimate_operation_cost, String.reduceEq, reduceIte, Option.getD]
      norm_num
  · simp only [_predict_yield, _estimate_operation_cost, baseYieldOf, impactFactorOf,
      String.reduceEq, reduceIte]
    norm_num

/-- C3 (amended): when a truthy budget constraint is given and the estimated
cost exceeds it (so every ranked window is discarded by the first pass), the
relaxation pass annotates every window with the cost and the within-budget
flag but does not compute yield or net return; the subsequent sort treats the
missing net returns as 0 and therefore picks the window maximising the
weather score alone; the pass itself raises no error — the call returns the
top-scoring window with `net_financial_return = none` and the over-budget
cost phrase. -/
theorem C3_budget_relaxed (field : FarmField) (request : DecisionTreeRequest)
    (weather_data : WeatherData) (now : Int) (w : WeatherWindow) (t : List WeatherWindow)
    (hb : pyTruthy request.budget_constraint = true)
    (hover : request.budget_constraint.getD 0
        < _estimate_operation_cost request.operation_type field.area_hectares)
    (hw : get_optimal_weather_window weather_data now (now + 30) true = w :: t) :
    (∀ win, budgetPassStep field request win = none)
    ∧ (∀ win, (relaxStep field request win).predicted_yield_value = none
        ∧ (relaxStep field request win).net_financial_return = none
        ∧ (relaxStep field request win).estimated_cost
            = _estimate_operation_cost request.operation_type field.area_hectares)
    ∧ predict_optimal_date (some field) request weather_data now
        = .ok { recommended_date := w.date
                confidence_score := min 0.95 (w.weather_score / 100)
                estimated_cost :=
                  _estimate_operation_cost request.operation_type field.area_hectares
                weather_risk :=
                  if 10 < w.precipitation then "high"
                  else if 5 < w.precipitation then "medium" else "low"
                net_financial_return := none
                recommendation_reason :=
                  (if 80 ≤ w.weather_score then "Excellent weather conditions"
                   else if 60 ≤ w.weather_score then "Good weather conditions"
                   else "Acceptable weather conditions")
                  ++ "; "
                  ++ ("Estimated cost: "
                      ++ fmt2 (_estimate_operation_cost request.operation_type
                          field.area_hectares)
                      ++ " PHP") } :=
  ⟨fun win => budgetPassStep_none field request hb hover win,
   fun _ => ⟨rfl, rfl, rfl⟩,
   predict_relaxed field request weather_data now w t hb hover hw⟩

/-- C3 witness: the counterexample's concrete scenario run through the
amended theorem. -/
theorem C3_budget_relaxed_witness :
    predict_optimal_date (some ⟨1, "F", "corn", 1, none⟩) ⟨1, "planting", some 100⟩
        ⟨[⟨1, some 0, some 25, some 15⟩]⟩ 0
      = .ok { recommended_date := 1
              confidence_score := 19 / 20
              estimated_cost := 3000
              weather_risk := "low"
              net_financial_return := none
              recommendation_reason :=
                "Excellent weather conditions; Estimated cost: 3000.00 PHP" } := by
  have hw : get_optimal_weather_window ⟨[⟨1, some 0, some 25, some 15⟩]⟩ 0 (0 + 30) true
      = mkWindow true ⟨1, some 0, some 25, some 15⟩ :: [] := by
    unfold get_optimal_weather_window pySortDesc
    norm_num [List.filter, List.insertionSort]
  have h := (C3_budget_relaxed ⟨1, "F", "corn", 1, none⟩ ⟨1, "planting", some 100⟩
    ⟨[⟨1, some 0, some 25, some 15⟩]⟩ 0 (mkWindow true ⟨1, some 0, some 25, some 15⟩) []
    (by simp [pyTruthy])
    (by simp only [_estimate_operation_cost, String.reduceEq, reduceIte, Option.getD]
        norm_num)
    hw).2.2
  rw [h]
  have hscore : (mkWindow true ⟨1, some 0, some 25, some 15⟩).weather_score = 110 := by
    simp only [mkWindow, rawScore, pyTruthy, Option.getD]
    norm_num
  have hprec : (mkWindow true ⟨1, some 0, some 25, some 15⟩).precipitation = 0 := rfl
  have hdate : (mkWindow true ⟨1, some 0, some 25, some 15⟩).date = 1 := rfl
  rw [hscore, hprec, hdate]
  have hcost : _estimate_operation_cost "planting" (1 : ℚ) = 3000 := by
    simp only [_estimate_operation_cost, String.reduceEq, reduceIte]
    norm_num
  have hfmt : fmt2 (3000 : ℚ) = "3000.00" := by
    simp only [fmt2]
    norm_num [round_eq]
    rfl
  dsimp only
  rw [hcost, hfmt]
  norm_num [inf_eq_min, min_def]
  rfl

end Fofao
